import Mathlib

/-!
Verification of the coreaudio iOS backend of the cpal repository.

The repository holds two variants of the same backend:
  * `src/host/coreaudio/coreaudio_ios.rs` (here suffixed `_legacy`), and
  * `src/host/coreaudio/ios/mod.rs`        (here suffixed `_ios`).
Both are embedded below.  Effectful native calls (creating an audio unit,
setting properties, starting/stopping hardware) are modelled by passing in
an environment that records the outcome of each native call, and every
function that issues native calls also returns the list of hardware actions
it performed, in order.  A Rust panic (`expect` / `unwrap`) is modelled by
an explicit `panicked` constructor.

Types that live in the crate root (`lib.rs`) rather than under `src/` —
the error enumerations, `StreamInstant`, `cmp_default_heuristics`,
`with_sample_rate` — and the helpers `host_time_to_stream_instant` /
`frames_to_duration` from `src/host/coreaudio/mod.rs` are modelled from
the spec; each such definition says so in its doc comment.
-/

set_option autoImplicit false

namespace Cpal

/-! ### Data model -/

/-- Sample encodings of the crate (spec section 3: "enumeration of supported
sample encodings (e.g., 32-bit float)").  The variants are the ones named by
the crate import list in the source (`SampleFormat`). -/
inductive SampleFormat
  | I16
  | U16
  | F32
deriving DecidableEq

/-- Modelled from the spec: byte size of one sample of the given format
(used by the callback as `sample_format.sample_size()`). -/
def SampleFormat.sample_size : SampleFormat → Nat
  | .I16 => 2
  | .U16 => 2
  | .F32 => 4

/-- Requested buffer size: `Fixed(frames) | Default` (spec section 3). -/
inductive BufferSize
  | Fixed (v : Nat)
  | Default
deriving DecidableEq

/-- Caller-supplied stream configuration.  `channels` is a `u16` and the
sample rate a `u32` in the source; both are embedded as `Nat` since the
code only compares them against small constants. -/
structure StreamConfig where
  channels : Nat
  sample_rate : Nat
  buffer_size : BufferSize
deriving DecidableEq

/-- `SupportedBufferSize` of the crate: a min/max range or unknown. -/
inductive SupportedBufferSize
  | Range (min max : Nat)
  | Unknown
deriving DecidableEq

/-- A supported-configuration range as produced by enumeration. -/
structure SupportedStreamConfigRange where
  channels : Nat
  min_sample_rate : Nat
  max_sample_rate : Nat
  buffer_size : SupportedBufferSize
  sample_format : SampleFormat
deriving DecidableEq

/-- A range narrowed to one concrete sample rate (`SupportedStreamConfig`). -/
structure SupportedStreamConfig where
  channels : Nat
  sample_rate : Nat
  buffer_size : SupportedBufferSize
  sample_format : SampleFormat
deriving DecidableEq

/-! ### Backend constants (identical in both source files) -/

def MIN_CHANNELS : Nat := 1
def MAX_CHANNELS : Nat := 2
def MIN_SAMPLE_RATE : Nat := 44100
def MAX_SAMPLE_RATE : Nat := 44100
def DEFAULT_SAMPLE_RATE : Nat := 44100
def MIN_BUFFER_SIZE : Nat := 512
def MAX_BUFFER_SIZE : Nat := 512
def DEFAULT_BUFFER_SIZE : Nat := 512
def SUPPORTED_SAMPLE_FORMAT : SampleFormat := SampleFormat.F32

/-! ### Error enumerations

Modelled from the spec (section 7 error taxonomy) and from the variants the
source code itself names (`StreamConfigNotSupported`, `DeviceNotAvailable`,
`StreamTypeNotSupported`, `BackendSpecific`); the enumerations themselves
live in the crate root, which is not under `src/`. -/

/-- Modelled from the spec: the native coreaudio error.  The variants named
by the source `From` impl are listed; every other native failure is
`Other` with its display description. -/
inductive CoreAudioError
  | RenderCallbackBufferFormatDoesNotMatchAudioUnitStreamFormat
  | NoKnownSubtype
  | AudioUnitFormatNotSupported
  | AudioCodec (code : Int)
  | AudioFormat (code : Int)
  | Other (description : String)
deriving DecidableEq

/-- Modelled from the spec: the display description of a native error, as
produced by the Rust `format!` call in the source `From` impls. -/
def CoreAudioError.describe : CoreAudioError → String
  | .RenderCallbackBufferFormatDoesNotMatchAudioUnitStreamFormat =>
      "render callback buffer format does not match audio unit stream format"
  | .NoKnownSubtype => "no known subtype"
  | .AudioUnitFormatNotSupported => "audio unit: format not supported"
  | .AudioCodec _ => "audio codec error"
  | .AudioFormat _ => "audio format error"
  | .Other d => d

/-- Modelled from the spec: `BuildStreamError` of the crate root. -/
inductive BuildStreamError
  | DeviceNotAvailable
  | StreamConfigNotSupported
  | InvalidArgument
  | BackendSpecific (description : String)
deriving DecidableEq

/-- Modelled from the spec: `SupportedStreamConfigsError` of the crate root.
Its variants are those the source `From` impl can produce plus the ones the
crate defines for it. -/
inductive SupportedStreamConfigsError
  | DeviceNotAvailable
  | InvalidArgument
  | BackendSpecific (description : String)
deriving DecidableEq

/-- Modelled from the spec: `DefaultStreamConfigError` of the crate root. -/
inductive DefaultStreamConfigError
  | DeviceNotAvailable
  | StreamTypeNotSupported
  | BackendSpecific (description : String)
deriving DecidableEq

/-- Modelled from the spec: `PlayStreamError` of the crate root. -/
inductive PlayStreamError
  | DeviceNotAvailable
  | BackendSpecific (description : String)
deriving DecidableEq

/-- Modelled from the spec: `PauseStreamError` of the crate root. -/
inductive PauseStreamError
  | DeviceNotAvailable
  | BackendSpecific (description : String)
deriving DecidableEq

/-- Modelled from the spec: `StreamError` delivered to the error callback. -/
inductive StreamError
  | DeviceNotAvailable
  | BackendSpecific (description : String)
deriving DecidableEq

/-- Embeds `impl From<coreaudio::Error> for BuildStreamError`
(coreaudio_ios.rs lines 382-393): the listed format-related variants map to
`StreamConfigNotSupported`, everything else to `DeviceNotAvailable`. -/
def coreaudio_error_to_BuildStreamError : CoreAudioError → BuildStreamError
  | .RenderCallbackBufferFormatDoesNotMatchAudioUnitStreamFormat =>
      .StreamConfigNotSupported
  | .NoKnownSubtype => .StreamConfigNotSupported
  | .AudioUnitFormatNotSupported => .StreamConfigNotSupported
  | .AudioCodec _ => .StreamConfigNotSupported
  | .AudioFormat _ => .StreamConfigNotSupported
  | .Other _ => .DeviceNotAvailable

/-- Embeds `impl From<coreaudio::Error> for SupportedStreamConfigsError`
(coreaudio_ios.rs lines 395-402): every native error becomes
`BackendSpecific` with its display description. -/
def coreaudio_error_to_SupportedStreamConfigsError
    (e : CoreAudioError) : SupportedStreamConfigsError :=
  .BackendSpecific e.describe

/-! ### valid_config (coreaudio_ios.rs lines 438-445) -/

/-- Embeds `valid_config`: whether the given stream configuration is valid
for building a stream. -/
def valid_config (conf : StreamConfig) (sample_format : SampleFormat) : Bool :=
  conf.channels ≤ MAX_CHANNELS
    && MIN_CHANNELS ≤ conf.channels
    && conf.sample_rate ≤ MAX_SAMPLE_RATE
    && MIN_SAMPLE_RATE ≤ conf.sample_rate
    && sample_format == SUPPORTED_SAMPLE_FORMAT

/-! ### Enumeration and default-config selection -/

/-- Embeds `supported_output_configs` (identical in both files): one range
per channel count from `MIN_CHANNELS` to `MAX_CHANNELS`, each carrying the
full rate and buffer envelope. -/
def supported_output_configs : List SupportedStreamConfigRange :=
  (List.range (MAX_CHANNELS - MIN_CHANNELS + 1)).map (fun i =>
    { channels := MIN_CHANNELS + i
      min_sample_rate := MIN_SAMPLE_RATE
      max_sample_rate := MAX_SAMPLE_RATE
      buffer_size := .Range MIN_BUFFER_SIZE MAX_BUFFER_SIZE
      sample_format := SUPPORTED_SAMPLE_FORMAT })

/-- Modelled from the spec: distance of a range's rate envelope from the
preferred rate, used by the default-selection heuristic ("a rate closest to
a fixed preferred rate"). -/
def rate_distance (r : SupportedStreamConfigRange) : Nat :=
  if r.min_sample_rate ≤ DEFAULT_SAMPLE_RATE ∧ DEFAULT_SAMPLE_RATE ≤ r.max_sample_rate then 0
  else if r.max_sample_rate < DEFAULT_SAMPLE_RATE then DEFAULT_SAMPLE_RATE - r.max_sample_rate
  else r.min_sample_rate - DEFAULT_SAMPLE_RATE

/-- Modelled from the spec: `cmp_default_heuristics` of the crate root
(spec section 3: "prefer higher channel count, then a rate closest to a
fixed preferred rate, else highest rate — exact tie-break policy must be
deterministic and total"). -/
def cmp_default_heuristics (a b : SupportedStreamConfigRange) : Ordering :=
  if a.channels ≠ b.channels then compare a.channels b.channels
  else if rate_distance a ≠ rate_distance b then compare (rate_distance b) (rate_distance a)
  else compare a.max_sample_rate b.max_sample_rate

/-- Rust `Iterator::max_by` semantics: `none` on an empty sequence, else
the last of the maximal elements (the fold keeps the later element unless
the accumulator is strictly greater). -/
def max_by {α : Type} (cmp : α → α → Ordering) : List α → Option α
  | [] => none
  | x :: xs => some (xs.foldl (fun acc y => if cmp acc y == .gt then acc else y) x)

/-- Modelled from the spec: `with_sample_rate` of the crate root narrows a
range to one concrete sample rate (spec section 4.1: "fixes sample_rate to
the platform's single canonical rate"). -/
def with_sample_rate (r : SupportedStreamConfigRange) (rate : Nat) : SupportedStreamConfig :=
  { channels := r.channels
    sample_rate := rate
    buffer_size := r.buffer_size
    sample_format := r.sample_format }

/-- Outcome of a Rust computation that may panic (`expect` / `unwrap`). -/
inductive PanicOr (α : Type)
  | panicked (msg : String)
  | ok (a : α)
deriving DecidableEq

/-- The `expect` message of `default_output_config` / `default_input_config`. -/
def EXPECT_MSG : String := "expected at least one valid coreaudio stream config"

/-- The panic message produced by `Option::unwrap` on `None`. -/
def UNWRAP_MSG : String := "called Option::unwrap on a None value"

/-- Embeds the body shared by `default_output_config` (both files) and
`default_input_config` (ios/mod.rs), generically in the enumeration result:
`supported_*_configs().expect(EXPECT).max_by(cmp_default_heuristics).unwrap()
  .with_sample_rate(DEFAULT_SAMPLE_RATE)`.
`expect` panics when enumeration failed; `unwrap` panics when the
enumerated set is empty. -/
def default_config_from
    (configs : Except SupportedStreamConfigsError (List SupportedStreamConfigRange)) :
    PanicOr SupportedStreamConfig :=
  match configs with
  | .error _ => .panicked EXPECT_MSG
  | .ok l =>
    match max_by cmp_default_heuristics l with
    | none => .panicked UNWRAP_MSG
    | some r => .ok (with_sample_rate r DEFAULT_SAMPLE_RATE)

/-- Embeds `default_output_config` (coreaudio_ios.rs lines 134-146 and
ios/mod.rs lines 147-158): selection over the fixed output enumeration. -/
def default_output_config : PanicOr SupportedStreamConfig :=
  default_config_from (.ok supported_output_configs)

/-- Embeds `default_input_config` of coreaudio_ios.rs (lines 128-132): an
unconditional `StreamTypeNotSupported` error. -/
def default_input_config_legacy :
    Except DefaultStreamConfigError SupportedStreamConfig :=
  .error .StreamTypeNotSupported

/-! ### Input-capability probing (ios/mod.rs lines 83-112, 385-411)

`supported_input_configs` creates a transient audio unit, reconfigures it
for recording (enable input, disable output), re-initialises it and reads
the native stream format back.  Each step is a fallible native call whose
outcome is supplied by an `InputProbeEnv`; each `?` converts a native error
through `coreaudio_error_to_SupportedStreamConfigsError`. -/

/-- Outcomes of the native calls made while probing input capability, in
source order: `create_audio_unit`, `uninitialize`, the two
`set_property(kAudioOutputUnitProperty_EnableIO, ...)` calls of
`configure_for_recording`, the re-initialisation, and the
`get_property(kAudioUnitProperty_StreamFormat, ...)` read-back returning
`(mChannelsPerFrame, mSampleRate)`. -/
structure InputProbeEnv where
  probe_create : Except CoreAudioError Unit
  probe_uninit : Except CoreAudioError Unit
  probe_enable_in : Except CoreAudioError Unit
  probe_disable_out : Except CoreAudioError Unit
  probe_reinit : Except CoreAudioError Unit
  probe_get_format : Except CoreAudioError (Nat × Nat)

/-- Embeds `supported_input_configs` of ios/mod.rs. -/
def supported_input_configs_ios (env : InputProbeEnv) :
    Except SupportedStreamConfigsError (List SupportedStreamConfigRange) :=
  match env.probe_create with
  | .error e => .error (coreaudio_error_to_SupportedStreamConfigsError e)
  | .ok _ =>
  match env.probe_uninit with
  | .error e => .error (coreaudio_error_to_SupportedStreamConfigsError e)
  | .ok _ =>
  match env.probe_enable_in with
  | .error e => .error (coreaudio_error_to_SupportedStreamConfigsError e)
  | .ok _ =>
  match env.probe_disable_out with
  | .error e => .error (coreaudio_error_to_SupportedStreamConfigsError e)
  | .ok _ =>
  match env.probe_reinit with
  | .error e => .error (coreaudio_error_to_SupportedStreamConfigsError e)
  | .ok _ =>
  match env.probe_get_format with
  | .error e => .error (coreaudio_error_to_SupportedStreamConfigsError e)
  | .ok asbd =>
      .ok [{ channels := asbd.1
             min_sample_rate := asbd.2
             max_sample_rate := asbd.2
             buffer_size := .Range MIN_BUFFER_SIZE MAX_BUFFER_SIZE
             sample_format := SUPPORTED_SAMPLE_FORMAT }]

/-- Embeds `default_input_config` of ios/mod.rs (lines 134-145): the same
expect/max_by/unwrap selection applied to the input probe. -/
def default_input_config_ios (env : InputProbeEnv) : PanicOr SupportedStreamConfig :=
  default_config_from (supported_input_configs_ios env)

/-- Embeds `supported_input_configs` of coreaudio_ios.rs (lines 100-106):
always the empty enumeration. -/
def supported_input_configs_legacy :
    Except SupportedStreamConfigsError (List SupportedStreamConfigRange) :=
  .ok []

/-! ### Building an output stream

`build_output_stream_raw` issues native calls in a fixed order:
`AudioUnit::new`, `set_property(kAudioUnitProperty_StreamFormat, ...)`,
`set_render_callback`, `start`.  The commented-out set-buffer-size step of
the source is deliberately absent.  The embedding returns the build result
together with the list of native calls issued, in order. -/

/-- A native call issued to the audio hardware layer. -/
inductive HwAction
  | NewAudioUnit
  | SetStreamFormat
  | SetBufferFrameSize (v : Nat)
  | SetRenderCallback
  | StartAudioUnit
  | StopAudioUnit
deriving DecidableEq

/-- Outcomes of the native calls `build_output_stream_raw` can issue, in
source order. -/
structure BuildEnv where
  new_audio_unit : Except CoreAudioError Unit
  set_stream_format : Except CoreAudioError Unit
  set_render_callback : Except CoreAudioError Unit
  start_unit : Except CoreAudioError Unit

/-- The mutable state of a live stream (`StreamInner`): its recorded
playing flag. -/
structure StreamInner where
  playing : Bool
deriving DecidableEq

/-- Embeds the buffer-size gate of `build_output_stream_raw` (both files):
`Fixed(0)` is rejected, `Fixed(v)` with `v ≥ 1` passes as `v` frames, and
`Default` resolves to `DEFAULT_BUFFER_SIZE`.  `none` stands for the early
`Err(BuildStreamError::StreamConfigNotSupported)` return. -/
def buffer_size_frames : BufferSize → Option Nat
  | .Fixed v => if v = 0 then none else some v
  | .Default => some DEFAULT_BUFFER_SIZE

/-- The part of `build_output_stream_raw` both files share: the buffer-size
gate followed by the native call sequence.  Returns the built stream (in
the `playing := true` state) or the converted error, together with the
native calls issued. -/
def build_output_stream_core (config : StreamConfig) (env : BuildEnv) :
    Except BuildStreamError StreamInner × List HwAction :=
  match buffer_size_frames config.buffer_size with
  | none => (.error .StreamConfigNotSupported, [])
  | some _ =>
    match env.new_audio_unit with
    | .error e => (.error (coreaudio_error_to_BuildStreamError e), [.NewAudioUnit])
    | .ok _ =>
      match env.set_stream_format with
      | .error e =>
          (.error (coreaudio_error_to_BuildStreamError e),
           [.NewAudioUnit, .SetStreamFormat])
      | .ok _ =>
        match env.set_render_callback with
        | .error e =>
            (.error (coreaudio_error_to_BuildStreamError e),
             [.NewAudioUnit, .SetStreamFormat, .SetRenderCallback])
        | .ok _ =>
          match env.start_unit with
          | .error e =>
              (.error (coreaudio_error_to_BuildStreamError e),
               [.NewAudioUnit, .SetStreamFormat, .SetRenderCallback, .StartAudioUnit])
          | .ok _ =>
              (.ok { playing := true },
               [.NewAudioUnit, .SetStreamFormat, .SetRenderCallback, .StartAudioUnit])

/-- Embeds `build_output_stream_raw` of coreaudio_ios.rs (lines 198-330):
the `valid_config` gate runs first, then the shared core. -/
def build_output_stream_raw_legacy (config : StreamConfig)
    (sample_format : SampleFormat) (env : BuildEnv) :
    Except BuildStreamError StreamInner × List HwAction :=
  if !valid_config config sample_format then (.error .StreamConfigNotSupported, [])
  else build_output_stream_core config env

/-- Embeds `build_output_stream_raw` of ios/mod.rs (lines 211-328): the
`valid_config` gate is commented out in this file, so only the shared core
runs. -/
def build_output_stream_raw_ios (config : StreamConfig)
    (_sample_format : SampleFormat) (env : BuildEnv) :
    Except BuildStreamError StreamInner × List HwAction :=
  build_output_stream_core config env

/-- Embeds `build_input_stream_raw` (both files, identical): an
unconditional `Err(BuildStreamError::StreamConfigNotSupported)` with no
native call. -/
def build_input_stream_raw (_config : StreamConfig) (_sample_format : SampleFormat) :
    Except BuildStreamError StreamInner × List HwAction :=
  (.error .StreamConfigNotSupported, [])

/-! ### play / pause (both files, identical)

Each returns the new stream state, whether a native call was issued, and
the result. -/

/-- Embeds `StreamTrait::play`: no-op when already playing; otherwise the
native `start` runs, and on failure the error is wrapped as
`BackendSpecific` with the recorded state unchanged. -/
def stream_play (s : StreamInner) (native_start : Except CoreAudioError Unit) :
    StreamInner × Bool × Except PlayStreamError Unit :=
  if s.playing then (s, false, .ok ())
  else
    match native_start with
    | .error e => (s, true, .error (.BackendSpecific e.describe))
    | .ok _ => ({ playing := true }, true, .ok ())

/-- Embeds `StreamTrait::pause`: no-op when already paused; otherwise the
native `stop` runs, and on failure the error is wrapped as
`BackendSpecific` with the recorded state unchanged. -/
def stream_pause (s : StreamInner) (native_stop : Except CoreAudioError Unit) :
    StreamInner × Bool × Except PauseStreamError Unit :=
  if s.playing then
    match native_stop with
    | .error e => (s, true, .error (.BackendSpecific e.describe))
    | .ok _ => ({ playing := false }, true, .ok ())
  else (s, false, .ok ())

/-! ### Timestamps and the render callback

`StreamInstant`, `host_time_to_stream_instant` and `frames_to_duration`
live in the crate root and in `src/host/coreaudio/mod.rs`, neither of
which is under `src/`; they are modelled from the spec.  The callback body
itself (the closure passed to `set_render_callback`, identical in both
files) is embedded from the source. -/

/-- Modelled from the spec: the largest representable `StreamInstant`,
expressed in nanoseconds.  The crate stores an instant as signed 64-bit
seconds plus sub-second nanoseconds; the spec only requires a fixed
representable range whose excess "must fail explicitly (not silently
wrap)". -/
def instant_max_nanos : Nat := (2 ^ 63 - 1) * 1000000000 + 999999999

/-- Modelled from the spec: a monotonic stream instant, in nanoseconds
from the stream time base. -/
structure StreamInstant where
  nanos : Nat
deriving DecidableEq

/-- Modelled from the spec: `StreamInstant::add` returns `none` instead of
wrapping when the sum would exceed the representable range. -/
def StreamInstant.add (i : StreamInstant) (d : Nat) : Option StreamInstant :=
  if i.nanos + d ≤ instant_max_nanos then some ⟨i.nanos + d⟩ else none

/-- Modelled from the spec: `host_time_to_stream_instant` converts a raw
hardware time counter via the device time-base scale (numerator and
denominator supplied by the native time service) and fails exactly when
that native service itself errors (spec section 4.2). -/
def host_time_to_stream_instant (timebase : Except String (Nat × Nat))
    (host_time : Nat) : Except String StreamInstant :=
  match timebase with
  | .error e => .error e
  | .ok p => .ok ⟨host_time * p.1 / p.2⟩

/-- Modelled from the spec: `frames_to_duration` is
`buffer_frames / sample_rate` seconds (spec section 4.2), here in
nanoseconds. -/
def frames_to_duration (frames : Nat) (sample_rate : Nat) : Nat :=
  frames * 1000000000 / sample_rate

/-- The output timestamp record `{callback, playback}` handed to the data
callback. -/
structure StreamTimestamp where
  callback : StreamInstant
  playback : StreamInstant
deriving DecidableEq

/-- The first `AudioBuffer` of a native buffer-ready notification: its
channel count and byte size (the raw data pointer carries no information
the embedding needs beyond the length derived from the byte size). -/
structure AudioBuffer where
  mNumberChannels : Nat
  mDataByteSize : Nat
deriving DecidableEq

deriving instance DecidableEq for Except

/-- Everything observable about one render-callback invocation: the error
callback invocations, the data callback invocations (sample count and
timestamp), the value returned to the hardware (`none` when the closure
panicked before returning), and the panic message if any. -/
structure CycleResult where
  error_calls : List StreamError
  data_calls : List (Nat × StreamTimestamp)
  hw_return : Option (Except Unit Unit)
  panic_msg : Option String
deriving DecidableEq

/-- The `expect` message on the `playback` computation in the source. -/
def EXPECT_PLAYBACK : String :=
  "`playback` occurs beyond representation supported by `StreamInstant`"

/-- Embeds the render-callback closure of `build_output_stream_raw`
(coreaudio_ios.rs lines 286-320, ios/mod.rs lines 284-318):
`len = byte_size / bytes_per_channel`; host-time conversion failure
invokes the error callback and returns `Err(())` to the hardware;
otherwise `buffer_frames = len / channels`,
`delay = frames_to_duration(buffer_frames, sample_rate)`, and
`playback = callback.add(delay).expect(...)` — `expect` panics when the
addition overflows; on success the data callback runs once with the
buffer view and timestamp and `Ok(())` is returned. -/
def render_cycle (sample_format : SampleFormat) (sample_rate : Nat)
    (timebase : Except String (Nat × Nat)) (buffer : AudioBuffer)
    (host_time : Nat) : CycleResult :=
  let bytes_per_channel := sample_format.sample_size
  let len := buffer.mDataByteSize / bytes_per_channel
  match host_time_to_stream_instant timebase host_time with
  | .error err =>
      { error_calls := [.BackendSpecific err]
        data_calls := []
        hw_return := some (.error ())
        panic_msg := none }
  | .ok cb =>
    let buffer_frames := len / buffer.mNumberChannels
    let delay := frames_to_duration buffer_frames sample_rate
    match cb.add delay with
    | none =>
        { error_calls := []
          data_calls := []
          hw_return := none
          panic_msg := some EXPECT_PLAYBACK }
    | some playback =>
        { error_calls := []
          data_calls := [(len, { callback := cb, playback := playback })]
          hw_return := some (.ok ())
          panic_msg := none }

/-- The input of one hardware-driven callback invocation. -/
structure CycleInput where
  timebase : Except String (Nat × Nat)
  buffer : AudioBuffer
  host_time : Nat

/-- A sequence of hardware-driven invocations of the registered callback:
the closure holds no state that one cycle carries to the next, so the run
is the per-cycle function mapped over the inputs. -/
def run_cycles (sample_format : SampleFormat) (sample_rate : Nat)
    (inputs : List CycleInput) : List CycleResult :=
  inputs.map (fun i => render_cycle sample_format sample_rate i.timebase i.buffer i.host_time)

/-! ### Concrete environments used by witnesses and counterexamples -/

/-- A build environment in which every native call succeeds. -/
def env_all_ok : BuildEnv :=
  { new_audio_unit := .ok ()
    set_stream_format := .ok ()
    set_render_callback := .ok ()
    start_unit := .ok () }

/-- An input-probe environment in which the transient activation (the
enable-input property set of `configure_for_recording`) fails. -/
def env_probe_fail : InputProbeEnv :=
  { probe_create := .ok ()
    probe_uninit := .ok ()
    probe_enable_in := .error (.Other "transient activation failed")
    probe_disable_out := .ok ()
    probe_reinit := .ok ()
    probe_get_format := .ok (2, 44100) }

/-! ### Helper lemmas -/

/-- No execution path of the shared build core issues a set-buffer-size
native call: the step is absent from the source (commented out). -/
theorem build_core_no_set_buffer (config : StreamConfig) (env : BuildEnv) (n : Nat) :
    HwAction.SetBufferFrameSize n ∉ (build_output_stream_core config env).2 := by
  unfold build_output_stream_core
  cases hb : buffer_size_frames config.buffer_size <;>
    cases e1 : env.new_audio_unit <;>
      cases e2 : env.set_stream_format <;>
        cases e3 : env.set_render_callback <;>
          cases e4 : env.start_unit <;>
            simp [hb, e1, e2, e3, e4]

/-- The characterisation of `valid_config` as a conjunction of bounds. -/
theorem valid_config_iff (c : StreamConfig) (f : SampleFormat) :
    valid_config c f = true ↔
      (MIN_CHANNELS ≤ c.channels ∧ c.channels ≤ MAX_CHANNELS ∧
       MIN_SAMPLE_RATE ≤ c.sample_rate ∧ c.sample_rate ≤ MAX_SAMPLE_RATE ∧
       f = SUPPORTED_SAMPLE_FORMAT) := by
  simp only [valid_config, Bool.and_eq_true, decide_eq_true_eq, beq_iff_eq]
  tauto

/-! ### Claim theorems -/

/-- C7: `valid_config` is a pure total predicate: it returns true exactly
when the channel count is within `[MIN_CHANNELS, MAX_CHANNELS]`, the sample
rate within `[MIN_SAMPLE_RATE, MAX_SAMPLE_RATE]`, and the sample format is
the one supported format; in particular it returns false for any config
with `channel_count = 0` or a sample rate outside the bounds.  (Purity and
determinism hold by construction: the embedding is a function of its
arguments alone, translated from a Rust function that reads no state.) -/
theorem valid_config_pure_predicate (c : StreamConfig) (f : SampleFormat) :
    (valid_config c f = true ↔
      (MIN_CHANNELS ≤ c.channels ∧ c.channels ≤ MAX_CHANNELS ∧
       MIN_SAMPLE_RATE ≤ c.sample_rate ∧ c.sample_rate ≤ MAX_SAMPLE_RATE ∧
       f = SUPPORTED_SAMPLE_FORMAT))
    ∧ (c.channels = 0 → valid_config c f = false)
    ∧ ((c.sample_rate < MIN_SAMPLE_RATE ∨ MAX_SAMPLE_RATE < c.sample_rate) →
        valid_config c f = false) := by
  refine ⟨valid_config_iff c f, ?_, ?_⟩
  · intro h0
    cases hv : valid_config c f with
    | false => rfl
    | true =>
      rcases (valid_config_iff c f).mp hv with ⟨h1, -⟩
      simp only [MIN_CHANNELS] at h1
      omega
  · intro hr
    cases hv : valid_config c f with
    | false => rfl
    | true =>
      rcases (valid_config_iff c f).mp hv with ⟨-, -, h3, h4, -⟩
      simp only [MIN_SAMPLE_RATE] at h3
      simp only [MAX_SAMPLE_RATE] at h4
      simp only [MIN_SAMPLE_RATE, MAX_SAMPLE_RATE] at hr
      omega

/-- C7 witness: the characterisation instantiated at concrete configs. -/
theorem valid_config_pure_predicate_witness :
    valid_config { channels := 0, sample_rate := 44100, buffer_size := .Default } .F32 = false
    ∧ valid_config { channels := 2, sample_rate := 44100, buffer_size := .Default } .F32 = true :=
  ⟨(valid_config_pure_predicate { channels := 0, sample_rate := 44100, buffer_size := .Default }
      .F32).2.1 rfl,
   (valid_config_pure_predicate { channels := 2, sample_rate := 44100, buffer_size := .Default }
      .F32).1.mpr (by decide)⟩

/-- C10: `build_input_stream_raw` unconditionally fails with
`StreamConfigNotSupported` and issues no native call, for every
configuration and sample format. -/
theorem build_input_stream_always_rejected (config : StreamConfig) (fmt : SampleFormat) :
    build_input_stream_raw config fmt = (.error .StreamConfigNotSupported, []) :=
  rfl

/-- C8: every request with `buffer_size = Fixed(0)` is rejected with
`StreamConfigNotSupported` before any native call, in both variants of
`build_output_stream_raw`. -/
theorem fixed_zero_rejected (config : StreamConfig) (fmt : SampleFormat) (env : BuildEnv)
    (h : config.buffer_size = .Fixed 0) :
    build_output_stream_raw_legacy config fmt env = (.error .StreamConfigNotSupported, [])
    ∧ build_output_stream_raw_ios config fmt env = (.error .StreamConfigNotSupported, []) := by
  have hcore : build_output_stream_core config env = (.error .StreamConfigNotSupported, []) := by
    unfold build_output_stream_core
    rw [h]
    rfl
  constructor
  · unfold build_output_stream_raw_legacy
    split
    · rfl
    · exact hcore
  · exact hcore

/-- C8 witness: a concrete `Fixed(0)` request is rejected by both variants
even when every native call would succeed. -/
theorem fixed_zero_rejected_witness :
    StreamConfig.buffer_size { channels := 2, sample_rate := 44100, buffer_size := .Fixed 0 }
        = .Fixed 0
    ∧ build_output_stream_raw_legacy { channels := 2, sample_rate := 44100, buffer_size := .Fixed 0 }
        .F32 env_all_ok = (.error .StreamConfigNotSupported, []) :=
  ⟨rfl,
   (fixed_zero_rejected { channels := 2, sample_rate := 44100, buffer_size := .Fixed 0 }
      .F32 env_all_ok rfl).1⟩

/-- C9: the buffer-size gate accepts every nonzero fixed size — no check
against the advertised range `[MIN_BUFFER_SIZE, MAX_BUFFER_SIZE]` is
performed — and no execution of either build variant ever issues a
set-buffer-size native call, even though every advertised output range
carries exactly the buffer-size range `[512, 512]`. -/
theorem buffer_size_gate_unchecked (v : Nat) (config : StreamConfig)
    (fmt : SampleFormat) (env : BuildEnv) (h : 1 ≤ v) :
    buffer_size_frames (.Fixed v) = some v
    ∧ (∀ n, HwAction.SetBufferFrameSize n ∉ (build_output_stream_raw_ios config fmt env).2)
    ∧ (∀ n, HwAction.SetBufferFrameSize n ∉ (build_output_stream_raw_legacy config fmt env).2)
    ∧ (∀ r ∈ supported_output_configs, r.buffer_size = .Range MIN_BUFFER_SIZE MAX_BUFFER_SIZE) := by
  refine ⟨?_, ?_, ?_, ?_⟩
  · simp only [buffer_size_frames]
    rw [if_neg]
    omega
  · intro n
    exact build_core_no_set_buffer config env n
  · intro n
    unfold build_output_stream_raw_legacy
    split
    · simp
    · exact build_core_no_set_buffer config env n
  · decide

/-- C9 witness: the gate at `Fixed(7)`, a size outside the advertised
`[512, 512]` range. -/
theorem buffer_size_gate_unchecked_witness :
    1 ≤ 7 ∧ buffer_size_frames (.Fixed 7) = some 7 :=
  ⟨by decide,
   (buffer_size_gate_unchecked 7 { channels := 2, sample_rate := 44100, buffer_size := .Fixed 7 }
      .F32 env_all_ok (by decide)).1⟩

/-- C6: `play` and `pause` are idempotent — on an already-playing stream
`play` issues no native call and returns success; on an already-paused
stream `pause` issues no native call and returns success — and when the
native start/stop fails the error is wrapped as `BackendSpecific` and the
recorded playing state is left unchanged. -/
theorem play_pause_idempotent (s : StreamInner) (native : Except CoreAudioError Unit)
    (e : CoreAudioError) :
    (s.playing = true → stream_play s native = (s, false, .ok ()))
    ∧ (s.playing = false → stream_pause s native = (s, false, .ok ()))
    ∧ (s.playing = false → native = .error e →
        stream_play s native = (s, true, .error (.BackendSpecific e.describe)))
    ∧ (s.playing = true → native = .error e →
        stream_pause s native = (s, true, .error (.BackendSpecific e.describe))) := by
  refine ⟨?_, ?_, ?_, ?_⟩
  · intro h
    simp [stream_play, h]
  · intro h
    simp [stream_pause, h]
  · intro h he
    simp [stream_play, h, he]
  · intro h he
    simp [stream_pause, h, he]

/-- C6 witness: all four cases at concrete states and native outcomes. -/
theorem play_pause_idempotent_witness :
    stream_play { playing := true } (.error (.Other "native start failed"))
        = ({ playing := true }, false, .ok ())
    ∧ stream_pause { playing := false } (.error (.Other "native stop failed"))
        = ({ playing := false }, false, .ok ())
    ∧ stream_play { playing := false } (.error (.Other "native start failed"))
        = ({ playing := false }, true, .error (.BackendSpecific "native start failed"))
    ∧ stream_pause { playing := true } (.error (.Other "native stop failed"))
        = ({ playing := true }, true, .error (.BackendSpecific "native stop failed")) :=
  ⟨(play_pause_idempotent { playing := true } (.error (.Other "native start failed"))
      (.Other "native start failed")).1 rfl,
   (play_pause_idempotent { playing := false } (.error (.Other "native stop failed"))
      (.Other "native stop failed")).2.1 rfl,
   (play_pause_idempotent { playing := false } (.error (.Other "native start failed"))
      (.Other "native start failed")).2.2.1 rfl rfl,
   (play_pause_idempotent { playing := true } (.error (.Other "native stop failed"))
      (.Other "native stop failed")).2.2.2 rfl rfl⟩

/-- C5: when host-time conversion fails for one cycle, the error callback
is invoked exactly once with the converted error, the data callback is not
invoked that cycle, the hardware still receives a return signal
(`Err(())`), and a subsequent cycle whose conversion succeeds (and whose
playback instant does not overflow) proceeds normally with exactly one
data-callback invocation and no error. -/
theorem conversion_failure_cycle (fmt : SampleFormat) (rate : Nat) (emsg : String)
    (bad_buffer : AudioBuffer) (bad_ht : Nat) (numer denom : Nat)
    (good_buffer : AudioBuffer) (good_ht : Nat)
    (hov : StreamInstant.add ⟨good_ht * numer / denom⟩
        (frames_to_duration (good_buffer.mDataByteSize / fmt.sample_size
          / good_buffer.mNumberChannels) rate) ≠ none) :
    (run_cycles fmt rate
        [⟨.error emsg, bad_buffer, bad_ht⟩, ⟨.ok (numer, denom), good_buffer, good_ht⟩]).map
          CycleResult.error_calls = [[.BackendSpecific emsg], []]
    ∧ (run_cycles fmt rate
        [⟨.error emsg, bad_buffer, bad_ht⟩, ⟨.ok (numer, denom), good_buffer, good_ht⟩]).map
          (fun r => r.data_calls.length) = [0, 1]
    ∧ (run_cycles fmt rate
        [⟨.error emsg, bad_buffer, bad_ht⟩, ⟨.ok (numer, denom), good_buffer, good_ht⟩]).map
          CycleResult.hw_return = [some (.error ()), some (.ok ())] := by
  obtain ⟨pb, hpb⟩ := Option.ne_none_iff_exists'.mp hov
  refine ⟨?_, ?_, ?_⟩ <;>
    simp [run_cycles, render_cycle, host_time_to_stream_instant, hpb]

/-- C5 witness: a failing cycle followed by a normal cycle at concrete
inputs. -/
theorem conversion_failure_cycle_witness :
    StreamInstant.add ⟨1000 * 1 / 1⟩
        (frames_to_duration (4096 / SampleFormat.sample_size .F32 / 2) 44100) ≠ none
    ∧ (run_cycles .F32 44100
        [⟨.error "conversion failed", ⟨2, 4096⟩, 5⟩, ⟨.ok (1, 1), ⟨2, 4096⟩, 1000⟩]).map
          CycleResult.error_calls = [[.BackendSpecific "conversion failed"], []] :=
  ⟨by decide,
   (conversion_failure_cycle .F32 44100 "conversion failed" ⟨2, 4096⟩ 5 1 1 ⟨2, 4096⟩ 1000
      (by decide)).1⟩

/-- C1 counterexample: at a callback instant at the top of the
representable range with a nonzero computed delay, host-time conversion
succeeds but the cycle panics (the `expect` on `callback.add(delay)`
fires): no error is surfaced through the error callback and no value is
returned to the hardware — contradicting the claim that the overflow is
surfaced as a stream-fatal error rather than a panic. -/
theorem playback_overflow_panics_counterexample :
    render_cycle .F32 44100 (.ok (1, 1)) ⟨2, 4096⟩ instant_max_nanos
      = { error_calls := []
          data_calls := []
          hw_return := none
          panic_msg := some EXPECT_PLAYBACK } := by
  rfl

/-- C1 (amended): whenever host-time conversion succeeds but adding the
computed output delay to the callback instant exceeds the representable
range of `StreamInstant`, the callback panics with the explicit overflow
message of the source `expect` — it neither wraps to a smaller value nor
invokes the data or error callback, and returns nothing to the hardware. -/
theorem playback_overflow_panics (fmt : SampleFormat) (rate : Nat) (numer denom : Nat)
    (buffer : AudioBuffer) (host_time : Nat)
    (hov : StreamInstant.add ⟨host_time * numer / denom⟩
        (frames_to_duration (buffer.mDataByteSize / fmt.sample_size
          / buffer.mNumberChannels) rate) = none) :
    render_cycle fmt rate (.ok (numer, denom)) buffer host_time
      = { error_calls := []
          data_calls := []
          hw_return := none
          panic_msg := some EXPECT_PLAYBACK } := by
  simp [render_cycle, host_time_to_stream_instant, hov]

/-- C1 witness: the amended statement at the concrete overflowing input. -/
theorem playback_overflow_panics_witness :
    StreamInstant.add ⟨instant_max_nanos * 1 / 1⟩
        (frames_to_duration (4096 / SampleFormat.sample_size .F32 / 2) 44100) = none
    ∧ render_cycle .F32 44100 (.ok (1, 1)) ⟨2, 4096⟩ instant_max_nanos
        = { error_calls := []
            data_calls := []
            hw_return := none
            panic_msg := some EXPECT_PLAYBACK } :=
  ⟨by decide,
   playback_overflow_panics .F32 44100 1 1 ⟨2, 4096⟩ instant_max_nanos (by decide)⟩

/-- C2 counterexample: in the ios/mod.rs variant the `valid_config` gate is
commented out, so a request with `channels = 3` — outside the `[1, 2]`
bounds, as `valid_config` itself confirms — is not rejected: the build
succeeds and acquires the native audio unit. -/
theorem invalid_channels_not_rejected_ios :
    valid_config { channels := 3, sample_rate := 44100, buffer_size := .Default } .F32 = false
    ∧ (build_output_stream_raw_ios { channels := 3, sample_rate := 44100, buffer_size := .Default }
        .F32 env_all_ok).1 = .ok { playing := true }
    ∧ HwAction.NewAudioUnit
        ∈ (build_output_stream_raw_ios { channels := 3, sample_rate := 44100, buffer_size := .Default }
            .F32 env_all_ok).2 := by
  decide

/-- C2 (amended): in the coreaudio_ios.rs variant, every requested config
that fails `valid_config` (channel count outside `[MIN_CHANNELS,
MAX_CHANNELS]`, sample rate outside `[MIN_SAMPLE_RATE, MAX_SAMPLE_RATE]`,
or a sample format other than the supported one) is rejected with
`StreamConfigNotSupported` before any native call; the ios/mod.rs variant
omits this validation. -/
theorem invalid_config_rejected_legacy (config : StreamConfig) (fmt : SampleFormat)
    (env : BuildEnv) (h : valid_config config fmt = false) :
    build_output_stream_raw_legacy config fmt env = (.error .StreamConfigNotSupported, []) := by
  simp [build_output_stream_raw_legacy, h]

/-- C2 witness: the rejection at the concrete `channels = 3` request. -/
theorem invalid_config_rejected_legacy_witness :
    valid_config { channels := 3, sample_rate := 44100, buffer_size := .Default } .F32 = false
    ∧ build_output_stream_raw_legacy { channels := 3, sample_rate := 44100, buffer_size := .Default }
        .F32 env_all_ok = (.error .StreamConfigNotSupported, []) :=
  ⟨by decide,
   invalid_config_rejected_legacy { channels := 3, sample_rate := 44100, buffer_size := .Default }
     .F32 env_all_ok (by decide)⟩

/-- C3 counterexample: on an empty enumerated set, the default-config
selection terminates with the `Option::unwrap` assertion-style panic — no
caller-reachable error value of any kind is returned. -/
theorem default_config_empty_panics :
    default_config_from (.ok []) = .panicked UNWRAP_MSG := by
  rfl

/-- C3 (amended): on an empty enumerated set the default-config selection
terminates with an assertion-style abort (the `unwrap` panic) rather than
returning a caller-reachable error; the enumerations of this code never
feed it an empty set — `default_output_config` returns the two-channel
config at the canonical rate, and the legacy `default_input_config`
returns `StreamTypeNotSupported` without enumerating at all. -/
theorem default_config_empty_aborts :
    default_config_from (.ok []) = .panicked UNWRAP_MSG
    ∧ default_output_config
        = .ok { channels := 2
                sample_rate := 44100
                buffer_size := .Range 512 512
                sample_format := .F32 }
    ∧ default_input_config_legacy = .error .StreamTypeNotSupported := by
  decide

/-- C4 counterexample: when the transient activation performed while
probing input capability fails, `supported_input_configs` of ios/mod.rs
returns `BackendSpecific` wrapping the native description — not
`StreamTypeNotSupported` (the `SupportedStreamConfigsError` conversion in
the source maps every native error to `BackendSpecific`). -/
theorem input_probe_failure_counterexample :
    supported_input_configs_ios env_probe_fail
      = .error (.BackendSpecific "transient activation failed") := by
  rfl

/-- C4 (amended): whenever the transient activation (the enable-input
reconfiguration) fails while earlier probe steps succeeded,
`supported_input_configs` fails with a `BackendSpecific` error carrying
the native error description — and hence returns no partial or garbage
result. -/
theorem input_probe_failure_backend_specific (env : InputProbeEnv) (e : CoreAudioError)
    (h1 : env.probe_create = .ok ()) (h2 : env.probe_uninit = .ok ())
    (h3 : env.probe_enable_in = .error e) :
    supported_input_configs_ios env = .error (.BackendSpecific e.describe) := by
  simp [supported_input_configs_ios, h1, h2, h3,
    coreaudio_error_to_SupportedStreamConfigsError]

/-- C4 witness: the amended statement at the concrete failing probe. -/
theorem input_probe_failure_backend_specific_witness :
    env_probe_fail.probe_create = .ok ()
    ∧ env_probe_fail.probe_uninit = .ok ()
    ∧ env_probe_fail.probe_enable_in = .error (.Other "transient activation failed")
    ∧ supported_input_configs_ios env_probe_fail
        = .error (.BackendSpecific "transient activation failed") :=
  ⟨rfl, rfl, rfl,
   input_probe_failure_backend_specific env_probe_fail (.Other "transient activation failed")
     rfl rfl rfl⟩

end Cpal
